import Mathlib

/-!
Verification of the camera edge-device queue/sync core (`local_storage.py`,
`web_app.py`, `gpio_service.py`) against its natural-language specification.

The Python classes are shallowly embedded: the mutable object state of
`LocalStorageManager` becomes the record `StorageState`, its methods become
pure functions `StorageState → ... → StorageState × ...`, and the effectful
environment (does the file exist, does an upload succeed, does the ledger
write to disk succeed) is passed in as explicit boolean parameters/oracles.
Python exceptions that a method catches internally are modelled by the
corresponding boolean result; an exception that escapes an inner statement
into a method's own `except` handler is modelled by the state the object has
accumulated at the raise point plus the handler's return value.
-/

/-- A queue entry (`image_info` dict in `local_storage.py`): filename is the
basename of the filepath; `created`/`modified` are timestamps (modelled as
naturals). -/
structure Image where
  filename : String
  filepath : String
  size : Nat
  created : Nat
  modified : Nat
  deriving DecidableEq, Repr

/-- The in-memory and on-disk state of a `LocalStorageManager` object:
`max_images` is the configured capacity (an unchecked Python int, so it is
modelled as an integer to allow zero and negative values), `images` is the
queue sequence newest-first, `uploaded_images` is the in-memory uploaded set
(a Python `set`, modelled as a duplicate-free list observed only through
membership), and `disk_ledger` is the `uploaded_images` list most recently
persisted successfully to `upload_status.json`. -/
structure StorageState where
  max_images : Int
  images : List Image
  uploaded_images : List String
  disk_ledger : List String
  deriving DecidableEq, Repr

/-- Python `set.add`: insert a string into a set modelled as a list. -/
def addToSet (f : String) (s : List String) : List String :=
  if f ∈ s then s else f :: s

/-- `LocalStorageManager.__init__(max_images, storage_dir)`: records the
capacity with no validation whatsoever, loads `existing` from the storage
directory (newest-first) and the persisted ledger from `upload_status.json`
(empty on absence or corruption). There is no error path: construction
always succeeds and returns an ordinary state. -/
def init_storage (max_images : Int) (existing : List Image)
    (ledger : List String) : StorageState :=
  { max_images := max_images
    images := existing
    uploaded_images := ledger
    disk_ledger := ledger }

/-- `LocalStorageManager._manage_queue_size`: `while len(images) > max_images:
images.pop()` — repeatedly removes the last (oldest) entry. The per-entry
file move/delete failures are caught inside the loop and do not affect the
list. Calling `pop()` on an empty list raises `IndexError` (reachable only
when `max_images < 0`); that raise escapes the method, which is recorded by
the boolean component (`true` = escaped exception), with the list left in
its mutated (empty) state. -/
def manage_queue_size (max_images : Int) : List Image → List Image × Bool
  | [] => if (0 : Int) > max_images then ([], true) else ([], false)
  | i :: rest =>
    if ((i :: rest).length : Int) > max_images then
      manage_queue_size max_images (i :: rest).dropLast
    else
      (i :: rest, false)
termination_by l => l.length
decreasing_by
  simp [List.length_dropLast]

/-- `LocalStorageManager.add_image(filepath)`: if the file does not exist,
return `False` without touching the queue; otherwise build the entry from
the file's metadata, insert it at the head of the list (newest first), then
enforce the capacity bound. An exception escaping `_manage_queue_size` is
caught by `add_image`'s own handler, which returns `False` (the list keeping
the mutations made so far). -/
def add_image (st : StorageState) (file_exists : Bool) (img : Image) :
    StorageState × Bool :=
  if file_exists then
    let r := manage_queue_size st.max_images (img :: st.images)
    ({ st with images := r.1 }, !r.2)
  else
    (st, false)

/-- `LocalStorageManager.mark_as_uploaded(filename)`: adds the filename to
the in-memory uploaded set, then calls `_save_upload_status`, whose body is
wrapped in `try/except` - a failed disk write is logged and swallowed, so
the method itself never raises; `save_ok` records whether the write reached
the disk. -/
def mark_as_uploaded (st : StorageState) (save_ok : Bool) (filename : String) :
    StorageState :=
  let mem := addToSet filename st.uploaded_images
  { st with
    uploaded_images := mem
    disk_ledger := if save_ok then mem else st.disk_ledger }

/-- `LocalStorageManager.is_uploaded(filename)`: membership in the in-memory
uploaded set. -/
def is_uploaded (st : StorageState) (filename : String) : Bool :=
  st.uploaded_images.contains filename

/-- `LocalStorageManager.get_upload_queue()`: the images whose filename is
not in the uploaded set, in the sequence's current (newest-first) order. -/
def get_upload_queue (st : StorageState) : List Image :=
  st.images.filter (fun img => !(is_uploaded st img.filename))

/-- Helper for `remove_image`: remove the first entry with the given
filename, reporting whether one was found. -/
def remove_first (filename : String) : List Image → List Image × Bool
  | [] => ([], false)
  | img :: rest =>
    if img.filename = filename then
      (rest, true)
    else
      let r := remove_first filename rest
      (img :: r.1, r.2)

/-- `LocalStorageManager.remove_image(filename)`: scans the list for the
first entry with the given filename, removes it (and deletes its backing
file), returning whether an entry was found. -/
def remove_image (st : StorageState) (filename : String) : StorageState × Bool :=
  let r := remove_first filename st.images
  ({ st with images := r.1 }, r.2)

/-- `LocalStorageManager.get_image_count()`. -/
def get_image_count (st : StorageState) : Nat :=
  st.images.length

/-- `LocalStorageManager.get_uploaded_count()`. -/
def get_uploaded_count (st : StorageState) : Nat :=
  st.uploaded_images.length

/-- One storage-manager operation, as invoked from the web app and the
background worker: an insert (`add_image`, with its file-existence
environment bit), an explicit removal, a mark-as-uploaded (with its
disk-write environment bit), or a rescan of the storage directory
(`/api/scan-images` replaces `images` with `_load_images()` output and
leaves the uploaded set untouched). -/
inductive QueueOp where
  | add (file_exists : Bool) (img : Image)
  | remove (filename : String)
  | mark (save_ok : Bool) (filename : String)
  | rescan (found : List Image)
  deriving Repr

/-- Apply one operation to the storage state. -/
def apply_op (st : StorageState) : QueueOp → StorageState
  | .add fe img => (add_image st fe img).1
  | .remove f => (remove_image st f).1
  | .mark ok f => mark_as_uploaded st ok f
  | .rescan found => { st with images := found }

/-- Result of one pass of an upload loop in `web_app.py`: the storage state
afterwards, the filenames attempted in order, and the increments applied to
`system_status` counters (`successful_uploads`, `failed_uploads`). -/
structure DrainResult where
  state : StorageState
  attempted : List String
  successful : Nat
  failed : Nat
  deriving DecidableEq, Repr

/-- The body of the `for img_info in images_to_upload[:5]` loop in
`upload_worker` (`web_app.py`): for each image in the batch, call
`uploader.upload(filepath)` (outcome given by the oracle `upload`); on a
truthy result, mark the filename uploaded and count a success; on a falsy
result or an exception, count a failure and `break` out of the batch. -/
def upload_batch (upload : Image → Bool) : StorageState → List Image → DrainResult
  | st, [] => ⟨st, [], 0, 0⟩
  | st, img :: rest =>
    if upload img then
      let r := upload_batch upload (mark_as_uploaded st true img.filename) rest
      ⟨r.state, img.filename :: r.attempted, r.successful + 1, r.failed⟩
    else
      ⟨st, [img.filename], 0, 1⟩

/-- One online drain cycle of `upload_worker` (`web_app.py`): take the first
five entries of `get_upload_queue()` (`images_to_upload[:5]`) and run the
upload loop over them. -/
def upload_worker_cycle (upload : Image → Bool) (st : StorageState) : DrainResult :=
  upload_batch upload st ((get_upload_queue st).take 5)

/-- Modelled from the spec: the batch §4.5 says `DrainBatch` should attempt —
up to five of the pending entries, oldest first among pending (the pending
sequence is newest-first, so the oldest-first order is its reverse). -/
def drain_batch_spec (st : StorageState) : List Image :=
  ((get_upload_queue st).reverse).take 5

/-- The `for img_info in upload_queue` loop of `force_upload` (`web_app.py`,
`/api/force-upload`): iterates over the whole pending snapshot; a truthy
upload marks the filename uploaded and counts a success, a falsy result or
an exception counts a failure and the loop simply continues with the next
entry — there is no `break`. -/
def force_upload_go (upload : Image → Bool) : StorageState → List Image → DrainResult
  | st, [] => ⟨st, [], 0, 0⟩
  | st, img :: rest =>
    if upload img then
      let r := force_upload_go upload (mark_as_uploaded st true img.filename) rest
      ⟨r.state, img.filename :: r.attempted, r.successful + 1, r.failed⟩
    else
      let r := force_upload_go upload st rest
      ⟨r.state, img.filename :: r.attempted, r.successful, r.failed + 1⟩

/-- `force_upload` (`web_app.py`): snapshots `get_upload_queue()` once and
runs the no-abort loop over the whole snapshot (the connectivity precheck is
assumed passed; it does not touch the queue). -/
def force_upload (upload : Image → Bool) (st : StorageState) : DrainResult :=
  force_upload_go upload st (get_upload_queue st)

/-- The falling-edge test of `_monitor_pins` (`gpio_service.py`): the handler
fires on a sample iff the previous sample was high (1) and the current one is
low (0). -/
def falling_fire (previous current : Nat) : Bool :=
  previous == 1 && current == 0

/-- Number of handler firings produced by `_monitor_pins` on a channel with a
registered callback over a sequence of samples, starting from remembered
state `previous` (`pin_states.get(pin, 1)` defaults to high): each iteration
reads the current sample, fires on `previous == 1 and current == 0`, and
stores the sample as the new previous state. Exceptions in the callback are
caught, so firing never interrupts the loop. -/
def monitor_pins_fires (previous : Nat) : List Nat → Nat
  | [] => 0
  | current :: rest =>
    (if falling_fire previous current then 1 else 0) + monitor_pins_fires current rest

/-- Modelled from the spec: the number of high-to-low transitions in a sample
sequence, read against the previous remembered value — the count of adjacent
pairs (1, 0) in the sequence extended with the initial state on the left. -/
def falling_edge_count (previous : Nat) (samples : List Nat) : Nat :=
  (((previous :: samples).zip samples).filter (fun p => falling_fire p.1 p.2)).length

/-- The successive contents of `upload_status.json` while
`_save_upload_status` runs: the code is `open(file, "w"); json.dump(data, f)`
on the ledger file itself — opening with mode `"w"` truncates the file, and
the serialized text is then written sequentially, so the file passes through
every left-to-right portion of the new content. `old_content` is the content
before the save (the state a crash before the truncation leaves behind). -/
def save_upload_status_states (old_content new_content : String) : List String :=
  old_content :: (List.range (new_content.length + 1)).map (fun n => new_content.take n)

/-- A sequence of `add_image` calls on existing files, in order. -/
def insert_all (st : StorageState) (imgs : List Image) : StorageState :=
  imgs.foldl (fun s i => (add_image s true i).1) st

/-- Modelled from the spec: §7 requires a capacity misconfigured to zero or
negative to fail fast with a descriptive error at construction time; the
repository's constructor has no such check, so the checked behavior exists
only as this spec-side definition. -/
def init_storage_checked (max_images : Int) (existing : List Image)
    (ledger : List String) : Except String StorageState :=
  if max_images ≤ 0 then
    Except.error "max_images must be a positive integer"
  else
    Except.ok (init_storage max_images existing ledger)

/-- A concrete image used in witnesses and counterexamples. -/
def mk_demo_image (name : String) (t : Nat) : Image :=
  ⟨name, "images/" ++ name, 100, t, t⟩

/-- A queue of six pending images, newest (`f1.jpg`) first. -/
def demo_six : StorageState :=
  init_storage 50
    [mk_demo_image "f1.jpg" 6, mk_demo_image "f2.jpg" 5, mk_demo_image "f3.jpg" 4,
     mk_demo_image "f4.jpg" 3, mk_demo_image "f5.jpg" 2, mk_demo_image "f6.jpg" 1] []

/-- A queue of two pending images, newest (`a.jpg`) first. -/
def demo_pending_two : StorageState :=
  init_storage 50 [mk_demo_image "a.jpg" 2, mk_demo_image "b.jpg" 1] []

/-- An upload collaborator that fails on every file except `b.jpg`. -/
def upload_only_b : Image → Bool := fun im => im.filename == "b.jpg"

/-- A queue of five pending images, newest (`a.jpg`) first. -/
def demo_five : StorageState :=
  init_storage 50
    [mk_demo_image "a.jpg" 5, mk_demo_image "b.jpg" 4, mk_demo_image "c.jpg" 3,
     mk_demo_image "d.jpg" 2, mk_demo_image "e.jpg" 1] []

/-- An upload collaborator that succeeds on `a.jpg` and fails on the rest. -/
def upload_only_a : Image → Bool := fun im => im.filename == "a.jpg"

/-- A second capture whose basename collides with `a.jpg`. -/
def demo_same_name : Image := ⟨"a.jpg", "captures/a.jpg", 90, 2, 2⟩

lemma is_uploaded_mark (st : StorageState) (ok : Bool) (f g : String) :
    is_uploaded (mark_as_uploaded st ok f) g = ((g == f) || is_uploaded st g) := by
  simp only [is_uploaded, mark_as_uploaded, addToSet]
  by_cases hf : f ∈ st.uploaded_images
  · by_cases hg : g = f <;> simp [hf, hg]
  · by_cases hg : g = f <;> simp [hf, hg]

lemma images_mark (st : StorageState) (ok : Bool) (f : String) :
    (mark_as_uploaded st ok f).images = st.images := rfl

lemma get_upload_queue_mark (st : StorageState) (ok : Bool) (f : String) :
    get_upload_queue (mark_as_uploaded st ok f)
      = (get_upload_queue st).filter (fun img => !(img.filename == f)) := by
  simp only [get_upload_queue, images_mark, List.filter_filter]
  refine List.filter_congr ?_
  intro img _
  rw [is_uploaded_mark]
  by_cases h1 : img.filename = f <;> by_cases h2 : is_uploaded st img.filename <;>
    simp [h1, h2]

lemma manage_queue_size_of_le (c : Int) (l : List Image)
    (h : (l.length : Int) ≤ c) : manage_queue_size c l = (l, false) := by
  cases l with
  | nil =>
      rw [manage_queue_size]
      simp at h
      rw [if_neg (by omega)]
  | cons i rest =>
      rw [manage_queue_size]
      rw [if_neg (by simp at h ⊢; omega)]

lemma manage_queue_size_succ (c : Int) (l : List Image)
    (hc : 0 ≤ c) (h : (l.length : Int) = c + 1) :
    manage_queue_size c l = (l.dropLast, false) := by
  cases l with
  | nil => simp at h; omega
  | cons i rest =>
      rw [manage_queue_size]
      rw [if_pos (by simp at h ⊢; omega)]
      exact manage_queue_size_of_le c _ (by
        simp [List.length_dropLast] at h ⊢
        omega)

lemma add_image_take (st : StorageState) (img : Image)
    (hc : 1 ≤ st.max_images) (hlen : (st.images.length : Int) ≤ st.max_images) :
    add_image st true img
      = ({ st with images := (img :: st.images).take st.max_images.toNat }, true) := by
  simp only [add_image, if_pos]
  by_cases h : ((img :: st.images).length : Int) ≤ st.max_images
  · rw [manage_queue_size_of_le _ _ h,
      List.take_of_length_le (by simp at h ⊢; omega)]
    rfl
  · have hlen' : ((img :: st.images).length : Int) = st.max_images + 1 := by
      simp at h hlen ⊢
      omega
    rw [manage_queue_size_succ _ _ (by omega) hlen', List.dropLast_eq_take]
    have ht : (img :: st.images).length - 1 = st.max_images.toNat := by
      simp at hlen' ⊢
      omega
    rw [ht]
    rfl

lemma take_append_take {α : Type} (n : Nat) (a b : List α) :
    (a ++ b.take n).take n = (a ++ b).take n := by
  rw [List.take_append_eq_append_take, List.take_append_eq_append_take,
    List.take_take]
  congr 1
  rw [Nat.min_eq_left (Nat.sub_le n _)]


lemma insert_all_images (c : Int) (imgs : List Image) :
    ∀ st : StorageState, st.max_images = c → 1 ≤ c →
      (st.images.length : Int) ≤ c →
      (insert_all st imgs).images = (imgs.reverse ++ st.images).take c.toNat
        ∧ (insert_all st imgs).max_images = c := by
  induction imgs with
  | nil =>
      intro st hmax hc hlen
      refine ⟨?_, hmax⟩
      have ht : st.images.take c.toNat = st.images :=
        List.take_of_length_le (by omega)
      simpa [insert_all] using ht.symm
  | cons img rest ih =>
      intro st hmax hc hlen
      have hstep := add_image_take st img (by omega) (by omega)
      have himg : (add_image st true img).1.images
          = (img :: st.images).take c.toNat := by rw [hstep, hmax]
      have hmax' : (add_image st true img).1.max_images = c := by rw [hstep, hmax]
      have hlen' : (((add_image st true img).1.images.length : Int)) ≤ c := by
        rw [himg]
        have := List.length_take_le c.toNat (img :: st.images)
        omega
      have hrec := ih (add_image st true img).1 hmax' hc hlen'
      refine ⟨?_, hrec.2⟩
      have : insert_all st (img :: rest) = insert_all (add_image st true img).1 rest := rfl
      rw [this, hrec.1, himg, take_append_take]
      simp [List.append_assoc]

lemma uploaded_images_add (st : StorageState) (fe : Bool) (img : Image) :
    (add_image st fe img).1.uploaded_images = st.uploaded_images := by
  cases fe <;> rfl

lemma uploaded_images_remove (st : StorageState) (f : String) :
    (remove_image st f).1.uploaded_images = st.uploaded_images := rfl

lemma is_uploaded_apply_op (st : StorageState) (op : QueueOp) (f : String)
    (h : is_uploaded st f = true) : is_uploaded (apply_op st op) f = true := by
  cases op with
  | add fe img => simpa [apply_op, is_uploaded, uploaded_images_add] using h
  | remove g => simpa [apply_op, is_uploaded, uploaded_images_remove] using h
  | mark ok g => rw [apply_op, is_uploaded_mark, h]; simp
  | rescan found => simpa [apply_op, is_uploaded] using h

lemma is_uploaded_foldl (ops : List QueueOp) :
    ∀ (st : StorageState) (f : String), is_uploaded st f = true →
      is_uploaded (ops.foldl apply_op st) f = true := by
  induction ops with
  | nil => intro st f h; simpa using h
  | cons op rest ih =>
      intro st f h
      exact ih (apply_op st op) f (is_uploaded_apply_op st op f h)

lemma is_uploaded_mark_self (st : StorageState) (ok : Bool) (f : String) :
    is_uploaded (mark_as_uploaded st ok f) f = true := by
  rw [is_uploaded_mark]; simp

lemma falling_edge_count_nil (p : Nat) : falling_edge_count p [] = 0 := rfl

lemma falling_edge_count_cons (p c : Nat) (rest : List Nat) :
    falling_edge_count p (c :: rest)
      = (if falling_fire p c then 1 else 0) + falling_edge_count c rest := by
  simp only [falling_edge_count, List.zip_cons_cons, List.filter_cons]
  split <;> simp [Nat.add_comm]

lemma monitor_fires_eq_falling_edges (samples : List Nat) :
    ∀ p : Nat, monitor_pins_fires p samples = falling_edge_count p samples := by
  induction samples with
  | nil => intro p; rfl
  | cons c rest ih =>
      intro p
      rw [monitor_pins_fires, falling_edge_count_cons, ih c]

lemma monitor_fires_all_low (n : Nat) :
    monitor_pins_fires 0 (List.replicate n 0) = 0 := by
  induction n with
  | zero => rfl
  | succ m ih => simpa [List.replicate_succ, monitor_pins_fires, falling_fire] using ih

lemma monitor_fires_low_le_one (p n : Nat) :
    monitor_pins_fires p (List.replicate n 0) ≤ 1 := by
  cases n with
  | zero => simp [monitor_pins_fires]
  | succ m =>
      rw [List.replicate_succ, monitor_pins_fires, monitor_fires_all_low]
      split <;> simp

lemma force_upload_go_attempted (upload : Image → Bool) (l : List Image) :
    ∀ st : StorageState,
      (force_upload_go upload st l).attempted = l.map Image.filename := by
  induction l with
  | nil => intro st; rfl
  | cons img rest ih =>
      intro st
      rw [force_upload_go]
      split <;> simp [ih]

/-- C6: on a queue with exactly five pending entries where the first
attempted upload succeeds and the second fails, one drain cycle marks
exactly the first attempted filename uploaded (which was not uploaded
before), counts one success and one failure, and leaves the other four
entries pending. -/
theorem c6_drain_abort_after_failure (st : StorageState) (upload : Image → Bool)
    (i1 i2 i3 i4 i5 : Image)
    (hq : get_upload_queue st = [i1, i2, i3, i4, i5])
    (hne : i1.filename ∉ [i2, i3, i4, i5].map Image.filename)
    (h1 : upload i1 = true) (h2 : upload i2 = false) :
    (upload_worker_cycle upload st).state.uploaded_images
        = addToSet i1.filename st.uploaded_images
    ∧ is_uploaded st i1.filename = false
    ∧ (upload_worker_cycle upload st).successful = 1
    ∧ (upload_worker_cycle upload st).failed = 1
    ∧ get_upload_queue (upload_worker_cycle upload st).state = [i2, i3, i4, i5] := by
  have htake : (get_upload_queue st).take 5 = [i1, i2, i3, i4, i5] := by
    rw [hq]
    exact List.take_of_length_le (by simp)
  have hbatch : upload_batch upload st [i1, i2, i3, i4, i5]
      = ⟨mark_as_uploaded st true i1.filename, [i1.filename, i2.filename], 1, 1⟩ := by
    simp [upload_batch, h1, h2]
  have hcycle : upload_worker_cycle upload st
      = ⟨mark_as_uploaded st true i1.filename, [i1.filename, i2.filename], 1, 1⟩ := by
    rw [upload_worker_cycle, htake, hbatch]
  have hi1 : is_uploaded st i1.filename = false := by
    have hmem : i1 ∈ get_upload_queue st := by
      rw [hq]; exact List.mem_cons_self _ _
    rw [get_upload_queue] at hmem
    have := (List.mem_filter.mp hmem).2
    simpa using this
  simp only [List.mem_map, List.mem_cons, List.mem_singleton, not_or, not_exists] at hne
  have hne2 : ¬(i2.filename = i1.filename) := fun h => hne i2 ⟨Or.inl rfl, h⟩
  have hne3 : ¬(i3.filename = i1.filename) := fun h => hne i3 ⟨Or.inr (Or.inl rfl), h⟩
  have hne4 : ¬(i4.filename = i1.filename) := fun h => hne i4 ⟨Or.inr (Or.inr (Or.inl rfl)), h⟩
  have hne5 : ¬(i5.filename = i1.filename) :=
    fun h => hne i5 ⟨Or.inr (Or.inr (Or.inr (Or.inl rfl))), h⟩
  refine ⟨by rw [hcycle]; rfl, hi1, by rw [hcycle], by rw [hcycle], ?_⟩
  rw [hcycle]
  show get_upload_queue (mark_as_uploaded st true i1.filename) = [i2, i3, i4, i5]
  rw [get_upload_queue_mark, hq]
  simp [List.filter_cons, hne2, hne3, hne4, hne5]


/-- C4: for every capacity C >= 1 and every sequence of N > C inserts of
distinct existing files, the queue afterwards holds exactly the C
most-recently-inserted files, newest first. -/
theorem c4_capacity_invariant (c : Int) (ledger : List String) (imgs : List Image)
    (hc : 1 ≤ c) (hn : c < (imgs.length : Int))
    (_hdistinct : (imgs.map Image.filename).Nodup) :
    (insert_all (init_storage c [] ledger) imgs).images = imgs.reverse.take c.toNat
    ∧ ((insert_all (init_storage c [] ledger) imgs).images.length : Int) = c := by
  have h := insert_all_images c imgs (init_storage c [] ledger) rfl hc
    (by simp [init_storage]; omega)
  have himg : (insert_all (init_storage c [] ledger) imgs).images
      = imgs.reverse.take c.toNat := by
    rw [h.1]; simp [init_storage]
  refine ⟨himg, ?_⟩
  rw [himg, List.length_take, List.length_reverse]
  omega

/-- Witness for C4 at capacity 2 and three distinct inserts. -/
theorem c4_capacity_invariant_witness :
    (insert_all (init_storage 2 [] [])
        [mk_demo_image "a.jpg" 1, mk_demo_image "b.jpg" 2, mk_demo_image "c.jpg" 3]).images
      = ([mk_demo_image "a.jpg" 1, mk_demo_image "b.jpg" 2,
          mk_demo_image "c.jpg" 3].reverse.take (2 : Int).toNat)
    ∧ (((insert_all (init_storage 2 [] [])
        [mk_demo_image "a.jpg" 1, mk_demo_image "b.jpg" 2,
         mk_demo_image "c.jpg" 3]).images.length : Int)) = 2 :=
  c4_capacity_invariant 2 []
    [mk_demo_image "a.jpg" 1, mk_demo_image "b.jpg" 2, mk_demo_image "c.jpg" 3]
    (by decide) (by decide) (by decide)

/-- C5: once a filename is marked uploaded, it stays uploaded across any
subsequent sequence of queue operations (inserts, evictions inside inserts,
explicit removals, further marks, rescans). -/
theorem c5_ledger_monotonic (st : StorageState) (ok : Bool) (f : String)
    (ops : List QueueOp) :
    is_uploaded (ops.foldl apply_op (mark_as_uploaded st ok f)) f = true :=
  is_uploaded_foldl ops _ f (is_uploaded_mark_self st ok f)

/-- C10: mark_as_uploaded always succeeds in memory even when the ledger
write fails: the filename is uploaded in memory, while the on-disk ledger and
the queue are untouched. -/
theorem c10_mark_survives_save_failure (st : StorageState) (f : String) :
    is_uploaded (mark_as_uploaded st false f) f = true
    ∧ (mark_as_uploaded st false f).disk_ledger = st.disk_ledger
    ∧ (mark_as_uploaded st false f).images = st.images :=
  ⟨is_uploaded_mark_self st false f, rfl, rfl⟩

/-- C8: the poll loop fires exactly once per high-to-low transition and never
otherwise: the firing count equals the falling-edge count of the sample
sequence, a line held continuously low fires at most once, and the sample
sequence high, low, high, low fires exactly twice. -/
theorem c8_falling_edge_only :
    (∀ (previous : Nat) (samples : List Nat),
        monitor_pins_fires previous samples = falling_edge_count previous samples)
    ∧ (∀ previous n : Nat, monitor_pins_fires previous (List.replicate n 0) ≤ 1)
    ∧ monitor_pins_fires 1 [1, 0, 1, 0] = 2 :=
  ⟨fun p s => monitor_fires_eq_falling_edges s p, monitor_fires_low_le_one, by decide⟩

/-- C2, counterexample: in a force-upload invocation over the two-image queue
where the first (newer) entry fails to upload, the later entry is still
attempted and still marked uploaded — the one-failure-abort policy is not
honored. -/
theorem c2_force_upload_no_abort_cex :
    upload_only_b (mk_demo_image "a.jpg" 2) = false
    ∧ (force_upload upload_only_b demo_pending_two).attempted = ["a.jpg", "b.jpg"]
    ∧ is_uploaded (force_upload upload_only_b demo_pending_two).state "b.jpg" = true := by
  decide

/-- C2, amended: force_upload attempts every entry of the pending snapshot in
queue order regardless of failures; a failed upload does not abort the
remainder of the invocation. -/
theorem c2_force_upload_attempts_every_pending (upload : Image → Bool)
    (st : StorageState) :
    (force_upload upload st).attempted = (get_upload_queue st).map Image.filename :=
  force_upload_go_attempted upload (get_upload_queue st) st

/-- C1: on a queue of six pending images (`f1.jpg` newest ... `f6.jpg`
oldest) with every upload succeeding, one drain cycle attempts the five
NEWEST pending entries newest-first — not the five oldest oldest-first that
the spec (and the code's own comment) call for. -/
theorem c1_drain_batch_newest_first_bug :
    (upload_worker_cycle (fun _ => true) demo_six).attempted
        = ["f1.jpg", "f2.jpg", "f3.jpg", "f4.jpg", "f5.jpg"]
    ∧ (drain_batch_spec demo_six).map Image.filename
        = ["f6.jpg", "f5.jpg", "f4.jpg", "f3.jpg", "f2.jpg"]
    ∧ (upload_worker_cycle (fun _ => true) demo_six).attempted
        ≠ (drain_batch_spec demo_six).map Image.filename := by
  decide

/-- C3, counterexample: while the ledger is being saved (old content `OLD`,
new content `NEW`) the ledger file passes through the empty content — a state
that is neither the old nor the new complete ledger, so the save is not the
claimed write-to-temp-then-replace. -/
theorem c3_save_truncates_ledger_cex :
    "" ∈ save_upload_status_states "OLD" "NEW"
    ∧ ¬("" = "OLD" ∨ "" = "NEW") := by
  decide

/-- C3, amended: mark_as_uploaded persists the ledger by rewriting the ledger
file in place (truncate, then write the new serialized content), so mid-save
the file holds the old content or an arbitrary left portion of the new
content — including the empty and other states that are neither the old nor
the new complete ledger. -/
theorem c3_save_rewrites_ledger_in_place (old_content new_content s : String) :
    s ∈ save_upload_status_states old_content new_content
      ↔ s = old_content ∨ ∃ n, n ≤ new_content.length ∧ s = new_content.take n := by
  simp [save_upload_status_states, Nat.lt_succ_iff, eq_comm]

/-- C7, counterexample: inserting a filepath whose basename `a.jpg` already
names a queued entry yields a queue with two entries named `a.jpg` — the
filename does not uniquely identify an entry. -/
theorem c7_duplicate_filename_cex :
    (((add_image (add_image (init_storage 50 [] []) true (mk_demo_image "a.jpg" 1)).1
          true demo_same_name).1.images.filter
        (fun im => im.filename == "a.jpg")).length = 2) := by
  norm_num [add_image, manage_queue_size, init_storage, mk_demo_image, demo_same_name]

/-- C7, amended: add_image performs no duplicate-filename check: whenever
there is room, it prepends the new entry unconditionally, so the number of
queued entries carrying the inserted basename grows by one even if an entry
with that filename is already queued. -/
theorem c7_insert_never_dedups (st : StorageState) (img : Image)
    (hroom : (st.images.length : Int) + 1 ≤ st.max_images) :
    (add_image st true img).1.images = img :: st.images
    ∧ ((add_image st true img).1.images.filter
          (fun im => im.filename == img.filename)).length
        = (st.images.filter (fun im => im.filename == img.filename)).length + 1 := by
  have h := manage_queue_size_of_le st.max_images (img :: st.images) (by simp; omega)
  have himg : (add_image st true img).1.images = img :: st.images := by
    simp [add_image, h]
  refine ⟨himg, ?_⟩
  rw [himg, List.filter_cons]
  simp

/-- Witness for C7, amended: inserting the colliding capture into the
two-image queue (which already holds an `a.jpg`). -/
theorem c7_insert_never_dedups_witness :
    (add_image demo_pending_two true demo_same_name).1.images
        = demo_same_name :: demo_pending_two.images
    ∧ ((add_image demo_pending_two true demo_same_name).1.images.filter
          (fun im => im.filename == demo_same_name.filename)).length
        = (demo_pending_two.images.filter
            (fun im => im.filename == demo_same_name.filename)).length + 1 :=
  c7_insert_never_dedups demo_pending_two demo_same_name (by decide)


/-- C9, counterexample: constructing the storage manager with capacity 0
succeeds and returns an ordinary state (where the spec-mandated checked
constructor errors), and the misconfiguration surfaces only later at
runtime: an insert reports success while the queue silently stays empty. -/
theorem c9_zero_capacity_constructs_cex :
    init_storage 0 [] []
        = { max_images := 0, images := [], uploaded_images := [], disk_ledger := [] }
    ∧ init_storage_checked 0 [] []
        = Except.error "max_images must be a positive integer"
    ∧ (add_image (init_storage 0 [] []) true (mk_demo_image "a.jpg" 1)).2 = true
    ∧ (add_image (init_storage 0 [] []) true (mk_demo_image "a.jpg" 1)).1.images = [] :=
  ⟨rfl, rfl, by norm_num [add_image, manage_queue_size, init_storage],
    by norm_num [add_image, manage_queue_size, init_storage]⟩

/-- C9, amended: construction with capacity zero or negative succeeds with no
validation at all; the misconfiguration surfaces later at runtime — with
capacity 0 an insert reports success yet every image is immediately evicted,
and with negative capacity an insert fails at runtime (the eviction loop pops
an empty list, raising inside add_image). -/
theorem c9_no_construction_validation (c : Int) (hc : c ≤ 0) (existing : List Image)
    (ledger : List String) (img : Image) :
    init_storage c existing ledger
        = { max_images := c, images := existing,
            uploaded_images := ledger, disk_ledger := ledger }
    ∧ (add_image (init_storage c [] ledger) true img).1.images = []
    ∧ ((add_image (init_storage c [] ledger) true img).2 = true ↔ c = 0) := by
  have hm : manage_queue_size c [img] = if (0 : Int) > c then ([], true) else ([], false) := by
    rw [manage_queue_size, if_pos (by simp; omega)]
    rw [show ([img] : List Image).dropLast = [] from rfl]
    rw [manage_queue_size]
  refine ⟨rfl, ?_, ?_⟩
  · by_cases h0 : (0 : Int) > c <;> simp [add_image, init_storage, hm, h0]
  · by_cases h0 : (0 : Int) > c <;> simp [add_image, init_storage, hm, h0] <;> omega

/-- Witness for C9, amended, at capacity -1. -/
theorem c9_no_construction_validation_witness :
    init_storage (-1) [] []
        = { max_images := -1, images := [], uploaded_images := [], disk_ledger := [] }
    ∧ (add_image (init_storage (-1) [] []) true (mk_demo_image "a.jpg" 1)).1.images = []
    ∧ ((add_image (init_storage (-1) [] []) true (mk_demo_image "a.jpg" 1)).2 = true
        ↔ (-1 : Int) = 0) :=
  c9_no_construction_validation (-1) (by decide) [] [] (mk_demo_image "a.jpg" 1)

/-- Witness for C6 on a concrete five-image queue where the first attempted
upload (`a.jpg`) succeeds and the second (`b.jpg`) fails. -/
theorem c6_drain_abort_after_failure_witness :
    (upload_worker_cycle upload_only_a demo_five).state.uploaded_images
        = addToSet "a.jpg" demo_five.uploaded_images
    ∧ is_uploaded demo_five "a.jpg" = false
    ∧ (upload_worker_cycle upload_only_a demo_five).successful = 1
    ∧ (upload_worker_cycle upload_only_a demo_five).failed = 1
    ∧ get_upload_queue (upload_worker_cycle upload_only_a demo_five).state
        = [mk_demo_image "b.jpg" 4, mk_demo_image "c.jpg" 3,
           mk_demo_image "d.jpg" 2, mk_demo_image "e.jpg" 1] :=
  c6_drain_abort_after_failure demo_five upload_only_a
    (mk_demo_image "a.jpg" 5) (mk_demo_image "b.jpg" 4) (mk_demo_image "c.jpg" 3)
    (mk_demo_image "d.jpg" 2) (mk_demo_image "e.jpg" 1)
    (by decide) (by decide) (by decide) (by decide)
